import Mathlib

/-!
Verification of the signal-evaluation and risk-sizing core of the
jesse-trading-bot repository (three strategy variants:
`YuanbaoSMABollingStrategy`, `SMABollingStrategy`, `TemaTrendFollowing`
in `TemaTrendFollowingCustom`).

Modelling conventions:
* Python floats are modelled as rationals (ℚ).  No claim settled here
  depends on a value produced by a division whose denominator is zero
  (where Python/numpy would yield inf or nan and ℚ yields 0); theorems
  that touch such divisions carry explicit nonzero-denominator facts or
  only inspect the denominator itself.
* External indicator outputs (RSI, SMA, Bollinger Bands, ADX, ATR, TEMA,
  CMO, EMA) are black boxes per the spec; their values are fields of the
  per-variant evaluation-state structures, aligned 1:1 with the candle
  window in sequential mode.
* A candle is the host's 6-column row; the sources index it positionally
  (index 2 and index 4 are both read as a price, index 5 as volume), so
  the fields are named by column index.
* Negative Python indexing `xs[-1]` / `xs[-2]` is modelled by the total
  accessors `lastD` / `penultD` (default 0); every theorem whose truth
  depends on an element being present carries a length hypothesis.
-/

/-- One host candle row; columns are kept positional because the sources
read them positionally (`candle[2]`, `candle[4]`, `candle[5]`). -/
structure Candle where
  c0 : ℚ
  c1 : ℚ
  c2 : ℚ
  c3 : ℚ
  c4 : ℚ
  c5 : ℚ
deriving DecidableEq, Repr

def cDefault : Candle := ⟨0, 0, 0, 0, 0, 0⟩

/-- Python `xs[-1]` (total, default 0). -/
def lastD (xs : List ℚ) : ℚ := xs.getLastD 0

/-- Python `xs[-2]` (total, default 0). -/
def penultD (xs : List ℚ) : ℚ := xs.dropLast.getLastD 0

/-- Python `min(xs)` on a nonempty list (default 0 on empty; the sources
only reach it behind length guards). -/
def pyMin (xs : List ℚ) : ℚ :=
  match xs with
  | [] => 0
  | x :: t => t.foldl min x

/-- Side of the host-owned open position. -/
inductive PosSide where
  | long
  | short
  | flat
deriving DecidableEq, Repr

/-- Failure signalled by the external indicator adapter.  Modelled from
the spec: `compute(...)` must fail with `InsufficientData` when the
window is shorter than the period (spec 4.1, 7). -/
inductive IndicatorError where
  | insufficientData
deriving DecidableEq, Repr

/-- Auxiliary higher-timeframe window as seen through the external
indicator adapter: its length plus the (black-box) TEMA value for each
period. -/
structure Aux4h where
  len : ℕ
  temaAt : ℕ → ℚ

/-- Modelled from the spec: the external `ta.tema` applied to the
auxiliary higher-timeframe window (jesse is not part of this
repository).  Per spec 4.1 and 7 it signals `InsufficientData` when the
window is missing or shorter than the period; otherwise it returns the
black-box TEMA value. -/
def temaOn4h (aux : Option Aux4h) (period : ℕ) : Except IndicatorError ℚ :=
  match aux with
  | none => .error .insufficientData
  | some a => if a.len < period then .error .insufficientData else .ok (a.temaAt period)

/-- Modelled from the spec: jesse `utils.size_to_qty(size, price,
precision=6)` — capital converted to quantity at the given price,
floor-truncated to 6 decimal places (spec 4.4). -/
def sizeToQty6 (size price : ℚ) : ℚ :=
  ((⌊size / price * 1000000⌋ : ℤ) : ℚ) / 1000000

/-! ## YuanbaoSMABollingStrategy -/

/-- Parameters set in `YuanbaoSMABollingStrategy.__init__` (numeric
fields the claims touch; hyperparameter injection can rebind them). -/
structure YCfg where
  adxThreshold : ℚ
  bbWidthThreshold : ℚ
  volumeSpikeFactor : ℚ
  minTrendPeriod : ℕ
  atrPeriod : ℕ
  maxRiskPerTrade : ℚ
  slMult : ℚ
  tpMult : ℚ
deriving DecidableEq, Repr

/-- The `__init__` defaults of `YuanbaoSMABollingStrategy`. -/
def yDefaultCfg : YCfg :=
  { adxThreshold := 22
    bbWidthThreshold := 15 / 1000
    volumeSpikeFactor := 3 / 2
    minTrendPeriod := 3
    atrPeriod := 14
    maxRiskPerTrade := 1 / 100
    slMult := 2
    tpMult := 3 }

/-- One evaluation state of `YuanbaoSMABollingStrategy`: the candle
window, the (black-box) sequential indicator outputs over it, the
auxiliary 1h window, scalar black-box indicator values, account state
and position state. -/
structure YState where
  cfg : YCfg
  candles : List Candle
  rsi : List ℚ
  rsiSma : List ℚ
  bbUpper : List ℚ
  bbLower : List ℚ
  bbMiddle : List ℚ
  adx : List ℚ
  smaTrend : List ℚ
  atr : List ℚ
  /-- `len(...)` of `get_candles(exchange, symbol, '1h')`; `none` when the
  fetch returned nothing. -/
  hourlyLen : Option ℕ
  /-- black-box `ta.sma(hourly_candles, period=50)[-1]`. -/
  hourlySmaVal : ℚ
  /-- black-box `utils.ema(self.volume, period=20)`. -/
  volEma20 : ℚ
  /-- black-box `ta.atr(self.candles[-20:], period=self.atr_period)[-1]`. -/
  recentAtr : ℚ
  availableMargin : ℚ
  /-- `self.entry_price` (set by `on_open_position`). -/
  entryPrice : ℚ
  posSide : PosSide

namespace Yuanbao

/-- `self.close`: source reads `candle[4]` for each candle. -/
def closeSeq (s : YState) : List ℚ := s.candles.map (fun c => c.c4)

/-- `self.volume`: source reads `candle[5]` for each candle. -/
def volumeSeq (s : YState) : List ℚ := s.candles.map (fun c => c.c5)

/-- `self.hourly_sma`: the 1h SMA50 when at least 50 hourly candles are
available, `None` otherwise. -/
def hourlySma (s : YState) : Option ℚ :=
  match s.hourlyLen with
  | none => none
  | some n => if 50 ≤ n then some s.hourlySmaVal else none

/-- The denominator list `base` of `bb_width`: the midline itself when
`min(bb_middle) > 0`, otherwise the midline with zero entries replaced
by `1e-6`. -/
def bbBase (s : YState) : List ℚ :=
  if 0 < pyMin s.bbMiddle then s.bbMiddle
  else s.bbMiddle.map (fun v => if v = 0 then 1 / 1000000 else v)

/-- `self.bb_width`: elementwise `(bb_upper - bb_lower) / base`. -/
def bbWidth (s : YState) : List ℚ :=
  List.zipWith (fun d b => d / b) (List.zipWith (fun u l => u - l) s.bbUpper s.bbLower) (bbBase s)

/-- `is_sideways_market` of `YuanbaoSMABollingStrategy`. -/
def isSideways (s : YState) : Bool :=
  if s.adx.length < 2 ∨ (bbWidth s).length < 2 then true
  else
    decide (lastD s.adx < s.cfg.adxThreshold ∧
      lastD (bbWidth s) < s.cfg.bbWidthThreshold ∧
      |lastD s.rsi - penultD s.rsi| < 5)

/-- checklist item `above_sma`. -/
def aboveSma (s : YState) : Bool := decide (lastD (closeSeq s) > lastD s.smaTrend)

/-- checklist item `adx_rising`. -/
def adxRising (s : YState) : Bool :=
  decide (lastD s.adx > s.cfg.adxThreshold ∧ lastD s.adx > penultD s.adx)

/-- checklist item `hourly_trend_up`: `hourly_sma is not None and close[-1] > hourly_sma`. -/
def hourlyUp (s : YState) : Bool :=
  match hourlySma s with
  | none => false
  | some v => decide (lastD (closeSeq s) > v)

/-- checklist item `volume_spike`. -/
def volumeSpike (s : YState) : Bool :=
  decide (lastD (volumeSeq s) > s.volEma20 * s.cfg.volumeSpikeFactor)

/-- `is_strong_uptrend`: at least 3 of the 4 checklist items. -/
def isStrongUptrend (s : YState) : Bool :=
  if s.candles.length < s.cfg.minTrendPeriod * 2 then false
  else decide (3 ≤ ([aboveSma s, adxRising s, hourlyUp s, volumeSpike s].count true))

/-- checklist item `below_sma`. -/
def belowSma (s : YState) : Bool := decide (lastD (closeSeq s) < lastD s.smaTrend)

/-- checklist item `hourly_trend_down`. -/
def hourlyDown (s : YState) : Bool :=
  match hourlySma s with
  | none => false
  | some v => decide (lastD (closeSeq s) < v)

/-- `is_strong_downtrend`: at least 3 of the 4 checklist items. -/
def isStrongDowntrend (s : YState) : Bool :=
  if s.candles.length < s.cfg.minTrendPeriod * 2 then false
  else decide (3 ≤ ([belowSma s, adxRising s, hourlyDown s, volumeSpike s].count true))

/-- `should_long` of `YuanbaoSMABollingStrategy`. -/
def shouldLong (s : YState) : Bool :=
  if isSideways s then false
  else
    decide (lastD (closeSeq s) < lastD s.bbMiddle) &&
      decide (lastD s.rsi > lastD s.rsiSma ∧ penultD s.rsi ≤ penultD s.rsiSma) &&
      isStrongUptrend s

/-- `should_short` of `YuanbaoSMABollingStrategy`. -/
def shouldShort (s : YState) : Bool :=
  if isSideways s then false
  else
    decide (lastD (closeSeq s) > lastD s.bbUpper) &&
      decide (lastD s.rsi < lastD s.rsiSma ∧ penultD s.rsi ≥ penultD s.rsiSma) &&
      isStrongDowntrend s

/-- The ATR value used by `calculate_position_size`: `self.atr[-1]` when
the series is at least `atr_period` long, otherwise the price-fraction
fallback `max(0.1, abs(close[-1] * 0.01))`. -/
def atrValue (s : YState) : ℚ :=
  if s.cfg.atrPeriod ≤ s.atr.length then lastD s.atr
  else max (1 / 10) |lastD (closeSeq s) * (1 / 100)|

/-- The stop distance implied by the sizing formula:
`stop_loss_atr_multiplier * atr_value`. -/
def stopDistance (s : YState) : ℚ := s.cfg.slMult * atrValue s

/-- `calculate_position_size` of `YuanbaoSMABollingStrategy`. -/
def calcPositionSize (s : YState) : ℚ :=
  if s.availableMargin < 10 then 0
  else
    let currentPrice := lastD (closeSeq s)
    let maxRisk := s.availableMargin * s.cfg.maxRiskPerTrade
    let positionSize := maxRisk / (s.cfg.slMult * atrValue s)
    let qty := sizeToQty6 positionSize currentPrice
    max qty 10

/-- `go_long` of `YuanbaoSMABollingStrategy`: the submitted
(quantity, limit-price) order, or `none` when no order is placed. -/
def goLong (s : YState) : Option (ℚ × ℚ) :=
  let qty := calcPositionSize s
  if qty > 0 then some (qty, lastD (closeSeq s)) else none

/-- `update_position` of `YuanbaoSMABollingStrategy`: the
(stop-loss, take-profit) pair written this evaluation, or `none` when
neither level is touched. -/
def updatePosition (s : YState) : Option (ℚ × ℚ) :=
  match s.posSide with
  | .long =>
      if 20 ≤ s.candles.length then
        some (s.entryPrice - s.cfg.slMult * s.recentAtr,
              s.entryPrice + s.cfg.tpMult * s.recentAtr)
      else none
  | .short =>
      if s.candles.length < 20 then none
      else
        some (s.entryPrice + s.cfg.slMult * s.recentAtr,
              s.entryPrice - s.cfg.tpMult * s.recentAtr)
  | .flat => none

/-- The sequential indicator series are aligned 1:1 with the candle
window (spec 3, Indicator Value invariant). -/
def aligned (s : YState) : Prop :=
  s.rsi.length = s.candles.length ∧
  s.rsiSma.length = s.candles.length ∧
  s.adx.length = s.candles.length ∧
  s.bbUpper.length = s.candles.length ∧
  s.bbLower.length = s.candles.length ∧
  s.bbMiddle.length = s.candles.length

end Yuanbao

/-! ## SMABollingStrategy -/

/-- Hyperparameters of `SMABollingStrategy` (accessed via `self.hp`). -/
structure SCfg where
  adxThreshold : ℚ
  bbWidthThreshold : ℚ
  rsiOversold : ℚ
  stopLossFactor : ℚ
  longTemaShortPeriod : ℕ
  longTemaLongPeriod : ℕ
deriving DecidableEq, Repr

/-- The declared hyperparameter defaults of `SMABollingStrategy`. -/
def sDefaultCfg : SCfg :=
  { adxThreshold := 25
    bbWidthThreshold := 2 / 100
    rsiOversold := 30
    stopLossFactor := 4
    longTemaShortPeriod := 20
    longTemaLongPeriod := 70 }

/-- One evaluation state of `SMABollingStrategy`. -/
structure SState where
  cfg : SCfg
  candles : List Candle
  rsi : List ℚ
  rsiSma : List ℚ
  bbUpper : List ℚ
  bbLower : List ℚ
  bbMiddle : List ℚ
  adx : List ℚ
  /-- black-box scalar `ta.atr(self.candles)`. -/
  atrScalar : ℚ
  /-- black-box scalar `ta.tema(self.candles, short_tema_short_period)`. -/
  shortTemaShort : ℚ
  /-- black-box scalar `ta.tema(self.candles, short_tema_long_period)`. -/
  shortTemaLong : ℚ
  /-- result of `get_candles(exchange, symbol, '4h')`; `none` when the
  auxiliary window is unavailable. -/
  aux4h : Option Aux4h
  availableMargin : ℚ
  /-- `self.position.qty`. -/
  posQty : ℚ
  /-- `self.position.entry_price`. -/
  posEntry : ℚ

namespace SmaBolling

/-- `self.candles[-1]` (total, default candle). -/
def lastCandle (s : SState) : Candle := s.candles.getLastD cDefault

/-- The denominator actually used by `bb_width`: the raw `bb_middle[-1]`,
with no substitution of any kind. -/
def bbWidthDen (s : SState) : ℚ := lastD s.bbMiddle

/-- `self.bb_width`: scalar `(bb_upper[-1] - bb_lower[-1]) / bb_middle[-1]`. -/
def bbWidth (s : SState) : ℚ :=
  (lastD s.bbUpper - lastD s.bbLower) / bbWidthDen s

/-- `is_sideways_market` of `SMABollingStrategy` (OR-combinator). -/
def isSideways (s : SState) : Bool :=
  if s.adx.length < 2 then true
  else
    decide (lastD s.adx < s.cfg.adxThreshold ∨ bbWidth s < s.cfg.bbWidthThreshold)

/-- `short_term_trend`: 1 on TEMA-crossover uptrend, else -1. -/
def shortTermTrend (s : SState) : ℤ :=
  if s.shortTemaShort > s.shortTemaLong then 1 else -1

/-- `long_term_trend`: TEMA crossover on the 4h window.  The source calls
the external TEMA with no availability guard, so an unavailable or short
window propagates the adapter's `InsufficientData` failure. -/
def longTermTrend (s : SState) : Except IndicatorError ℤ := do
  let t1 ← temaOn4h s.aux4h s.cfg.longTemaShortPeriod
  let t2 ← temaOn4h s.aux4h s.cfg.longTemaLongPeriod
  pure (if t1 > t2 then 1 else -1)

/-- `is_uptrend`: Python `and` short-circuits, so the 4h fetch is only
reached when the short-term trend is up. -/
def isUptrend (s : SState) : Except IndicatorError Bool :=
  if shortTermTrend s = 1 then do
    let lt ← longTermTrend s
    pure (lt = 1)
  else pure false

/-- `should_long` of `SMABollingStrategy` (the sideways gate runs before
any trend or crossover condition). -/
def shouldLong (s : SState) : Except IndicatorError Bool :=
  if isSideways s then pure false
  else do
    let up ← isUptrend s
    if up then
      pure (decide ((lastCandle s).c2 < lastD s.bbMiddle ∧ lastD s.rsiSma > lastD s.rsi))
    else
      pure (decide ((lastCandle s).c2 < lastD s.bbLower ∧ lastD s.rsi < lastD s.rsiSma))

/-- `should_short` of `SMABollingStrategy`: unconditionally `False`. -/
def shouldShort (_s : SState) : Bool := false

/-- The close-long crossover test inside `update_position`. -/
def closeLongSignal (s : SState) : Except IndicatorError Bool := do
  let up ← isUptrend s
  if up then
    pure (decide ((lastCandle s).c2 > lastD s.bbUpper ∧ lastD s.rsiSma < lastD s.rsi))
  else
    pure (decide ((lastCandle s).c2 > lastD s.bbMiddle ∧ lastD s.rsiSma < lastD s.rsi))

/-- Effect of one `update_position` evaluation: the stop-loss
(quantity, price) written, and whether the position was liquidated. -/
structure UpdateOut where
  stopLoss : Option (ℚ × ℚ)
  liquidated : Bool
deriving DecidableEq, Repr

/-- `update_position` of `SMABollingStrategy`: with a long position it
computes the close signal (which may fail on unavailable 4h data before
the stop is written), then rewrites the stop-loss from the current ATR,
then liquidates if the signal fired. -/
def updatePosition (s : SState) : Except IndicatorError UpdateOut :=
  if 0 < s.posQty then do
    let sig ← closeLongSignal s
    pure { stopLoss := some (s.posQty, s.posEntry - s.atrScalar * s.cfg.stopLossFactor)
           liquidated := sig }
  else pure { stopLoss := none, liquidated := false }

/-- Alignment of the sequential series with the candle window (spec 3). -/
def aligned (s : SState) : Prop :=
  s.rsi.length = s.candles.length ∧
  s.rsiSma.length = s.candles.length ∧
  s.adx.length = s.candles.length ∧
  s.bbUpper.length = s.candles.length ∧
  s.bbLower.length = s.candles.length ∧
  s.bbMiddle.length = s.candles.length

end SmaBolling

/-! ## TemaTrendFollowing (TemaTrendFollowingCustom) -/

/-- One evaluation state of `TemaTrendFollowing`. -/
structure TState where
  /-- black-box scalar `ta.tema(self.candles, 10)`. -/
  tema10 : ℚ
  /-- black-box scalar `ta.tema(self.candles, 80)`. -/
  tema80 : ℚ
  /-- result of `get_candles(exchange, symbol, '4h')`. -/
  aux4h : Option Aux4h
  /-- black-box scalar `ta.adx(self.candles)`. -/
  adx : ℚ
  /-- black-box scalar `ta.cmo(self.candles)`. -/
  cmo : ℚ
  /-- black-box scalar `ta.atr(self.candles)`. -/
  atr : ℚ
  /-- `self.price`. -/
  price : ℚ
  availableMargin : ℚ
  feeRate : ℚ

namespace Tema

/-- `short_term_trend`: 1 when `tema10 > tema80`, else -1. -/
def shortTermTrend (s : TState) : ℤ :=
  if s.tema10 > s.tema80 then 1 else -1

/-- `long_term_trend`: TEMA(20) vs TEMA(70) crossover on the unguarded
4h window. -/
def longTermTrend (s : TState) : Except IndicatorError ℤ := do
  let t1 ← temaOn4h s.aux4h 20
  let t2 ← temaOn4h s.aux4h 70
  pure (if t1 > t2 then 1 else -1)

/-- `should_long` of `TemaTrendFollowing`; Python `and` evaluates the
short-term trend first, so the 4h fetch is only reached when it is up. -/
def shouldLong (s : TState) : Except IndicatorError Bool :=
  if shortTermTrend s = 1 then do
    let lt ← longTermTrend s
    pure (decide (lt = 1) && decide (s.adx > 40) && decide (s.cmo > 40))
  else pure false

/-- `should_short` of `TemaTrendFollowing`. -/
def shouldShort (s : TState) : Except IndicatorError Bool :=
  if shortTermTrend s = -1 then do
    let lt ← longTermTrend s
    pure (decide (lt = -1) && decide (s.adx > 40) && decide (s.cmo < -40))
  else pure false

/-- `go_long` of `TemaTrendFollowing`, parametric in the external jesse
utilities `risk_to_qty (capital, risk_pct, entry, stop, fee_rate)` and
`size_to_qty (size, price, fee_rate)`; returns the submitted
(quantity, limit-price) buy order. -/
def goLong (rq : ℚ → ℚ → ℚ → ℚ → ℚ → ℚ) (sq : ℚ → ℚ → ℚ → ℚ) (s : TState) : ℚ × ℚ :=
  let entryPrice := s.price - s.atr
  let stopLossPrice := entryPrice - s.atr * 4
  let riskQty := rq s.availableMargin 3 entryPrice stopLossPrice s.feeRate
  let maxQty := sq (30 / 100 * s.availableMargin) entryPrice s.feeRate
  let qty := min riskQty maxQty
  (qty * 3, entryPrice)

/-- `go_short` of `TemaTrendFollowing`; returns the submitted
(quantity, limit-price) sell order. -/
def goShort (rq : ℚ → ℚ → ℚ → ℚ → ℚ → ℚ) (s : TState) : ℚ × ℚ :=
  let entryPrice := s.price + s.atr
  let stopLossPrice := entryPrice + s.atr * 4
  let qty := rq s.availableMargin 3 entryPrice stopLossPrice s.feeRate
  (qty * 3, entryPrice)

end Tema

/-! ## Concrete evaluation states used by witnesses and counterexamples -/

/-- A 4h auxiliary window of length `n` whose TEMA is `v` at every period. -/
def auxConst (n : ℕ) (v : ℚ) : Aux4h := ⟨n, fun _ => v⟩

/-- A minimal `YuanbaoSMABollingStrategy` evaluation state: default
configuration, empty window, no auxiliary data, no position. -/
def yBase : YState :=
  { cfg := yDefaultCfg, candles := [], rsi := [], rsiSma := [], bbUpper := [],
    bbLower := [], bbMiddle := [], adx := [], smaTrend := [], atr := [],
    hourlyLen := none, hourlySmaVal := 0, volEma20 := 0, recentAtr := 0,
    availableMargin := 0, entryPrice := 0, posSide := .flat }

/-- A minimal `SMABollingStrategy` evaluation state. -/
def sBase : SState :=
  { cfg := sDefaultCfg, candles := [], rsi := [], rsiSma := [], bbUpper := [],
    bbLower := [], bbMiddle := [], adx := [], atrScalar := 0,
    shortTemaShort := 0, shortTemaLong := 0, aux4h := none,
    availableMargin := 0, posQty := 0, posEntry := 0 }

/-- A minimal `TemaTrendFollowing` evaluation state. -/
def tBase : TState :=
  { tema10 := 0, tema80 := 0, aux4h := none, adx := 0, cmo := 0, atr := 0,
    price := 0, availableMargin := 0, feeRate := 0 }

/-- A sideways-classified `SMABollingStrategy` state with strong ADX 41:
band width `1/1000` is below the default threshold `0.02`, so the
OR-combinator classifies it sideways. -/
def sSideways41 : SState :=
  { sBase with adx := [41, 41], bbUpper := [101], bbLower := [100], bbMiddle := [1000] }

/-- A `TemaTrendFollowing` state with ADX 41 in which every entry
condition of `should_long` holds. -/
def tLong41 : TState :=
  { tBase with
      tema10 := 10, tema80 := 5,
      aux4h := some ⟨100, fun p => if p = 20 then 10 else 5⟩,
      adx := 41, cmo := 41 }

/-- A Yuanbao state exercising the `bb_width` guard at index 0. -/
def yBands : YState :=
  { yBase with bbUpper := [3], bbLower := [1], bbMiddle := [2] }

/-- An `SMABollingStrategy` state whose Bollinger midline is zero. -/
def sZeroMid : SState := { sBase with bbMiddle := [0] }

/-- A Yuanbao state with margin 100 and a most-recent ATR of zero: the
ATR series is exactly `atr_period` long, so the zero is used (no
fallback), making the implied stop distance zero. -/
def yZeroAtr : YState :=
  { yBase with
      availableMargin := 100,
      atr := List.replicate 13 5 ++ [0],
      candles := [{ cDefault with c4 := 100 }] }

/-- A Yuanbao state with available margin 5 (below the threshold 10). -/
def yMargin5 : YState := { yBase with availableMargin := 5 }

/-- A Yuanbao state with a 20-candle window and an open long position,
`entry_price` 1000 and 20-bar ATR 50. -/
def yLong20 : YState :=
  { yBase with
      candles := List.replicate 20 cDefault, posSide := .long,
      entryPrice := 1000, recentAtr := 50 }

/-- The same open long position over a 19-candle window. -/
def yLong19 : YState := { yLong20 with candles := List.replicate 19 cDefault }

/-- An `SMABollingStrategy` state with an open long position (qty 1,
entry 500), current ATR 10 and an available 4h window. -/
def sLongPos : SState :=
  { sBase with
      posQty := 1, posEntry := 500, atrScalar := 10,
      aux4h := some (auxConst 100 1) }

/-! ## Shared helper lemmas -/

theorem foldl_min_le_init (l : List ℚ) (a : ℚ) : l.foldl min a ≤ a := by
  induction l generalizing a with
  | nil => exact le_refl a
  | cons x t ih =>
      calc (x :: t).foldl min a = t.foldl min (min a x) := rfl
        _ ≤ min a x := ih _
        _ ≤ a := min_le_left _ _

theorem foldl_min_le_mem (l : List ℚ) (a x : ℚ) (hx : x ∈ l) : l.foldl min a ≤ x := by
  induction l generalizing a with
  | nil => cases hx
  | cons y t ih =>
      rcases List.mem_cons.mp hx with h | h
      · subst h
        calc (x :: t).foldl min a = t.foldl min (min a x) := rfl
          _ ≤ min a x := foldl_min_le_init t _
          _ ≤ x := min_le_right _ _
      · exact ih (min a y) h

theorem pyMin_le (l : List ℚ) (x : ℚ) (hx : x ∈ l) : pyMin l ≤ x := by
  cases l with
  | nil => cases hx
  | cons y t =>
      rcases List.mem_cons.mp hx with h | h
      · subst h; exact foldl_min_le_init t x
      · exact foldl_min_le_mem t y x h

theorem three_of_four_with_false (a b d : Bool) :
    (3 ≤ ([a, b, false, d].count true)) ↔ (a = true ∧ b = true ∧ d = true) := by
  cases a <;> cases b <;> cases d <;> simp [List.count_cons]

/-! ## Claim theorems -/

/-- C1: in each of the three strategy variants, `should_long` and
`should_short` are never both true in one evaluation: in
`YuanbaoSMABollingStrategy` the RSI/RSI-SMA crossover conditions are
contradictory, in `SMABollingStrategy` `should_short` is
unconditionally false, and in `TemaTrendFollowing` the short-term trend
cannot be both 1 and -1. -/
theorem long_short_mutually_exclusive (sY : YState) (sS : SState) (sT : TState) :
    ¬(Yuanbao.shouldLong sY = true ∧ Yuanbao.shouldShort sY = true) ∧
    ¬(SmaBolling.shouldLong sS = Except.ok true ∧ SmaBolling.shouldShort sS = true) ∧
    ¬(Tema.shouldLong sT = Except.ok true ∧ Tema.shouldShort sT = Except.ok true) := by
  refine ⟨?_, ?_, ?_⟩
  · rintro ⟨hl, hs⟩
    by_cases hsw : Yuanbao.isSideways sY
    · simp [Yuanbao.shouldLong, hsw] at hl
    · rw [Bool.not_eq_true] at hsw
      simp only [Yuanbao.shouldLong, Yuanbao.shouldShort, hsw, Bool.false_eq_true, if_false,
        Bool.and_eq_true, decide_eq_true_eq] at hl hs
      have h1 : lastD sY.rsi > lastD sY.rsiSma := hl.1.2.1
      have h2 : lastD sY.rsi < lastD sY.rsiSma := hs.1.2.1
      linarith
  · rintro ⟨-, hs⟩
    simp [SmaBolling.shouldShort] at hs
  · rintro ⟨hl, hs⟩
    by_cases h1 : Tema.shortTermTrend sT = 1
    · rw [Tema.shouldShort, h1] at hs
      simp only [if_neg (by decide : ¬((1 : ℤ) = -1))] at hs
      exact Bool.noConfusion (Except.ok.inj hs)
    · rw [Tema.shouldLong, if_neg h1] at hl
      exact Bool.noConfusion (Except.ok.inj hl)

/-- C2 counterexample: `TemaTrendFollowing` consults no sideways
classification.  In the concrete state below the repository's own
sideways classifier (`SMABollingStrategy.is_sideways_market`, fed the
same ADX value 41) reports sideways, yet the TEMA variant's
`should_long` is true. -/
theorem tema_long_fires_in_sideways_market :
    SmaBolling.isSideways sSideways41 = true ∧
    tLong41.adx = lastD sSideways41.adx ∧
    Tema.shouldLong tLong41 = Except.ok true := by
  refine ⟨?_, by decide, ?_⟩
  · rw [SmaBolling.isSideways]
    norm_num [sSideways41, sBase, sDefaultCfg, SmaBolling.bbWidth, SmaBolling.bbWidthDen, lastD]
  · rw [Tema.shouldLong, if_pos (by decide : Tema.shortTermTrend tLong41 = 1)]
    rfl

/-- C2 (amended): in `SMABollingStrategy` and
`YuanbaoSMABollingStrategy` a sideways classification suppresses both
entry signals before any directional or crossover condition is
considered; the `TemaTrendFollowing` variant performs no sideways
check. -/
theorem sideways_suppresses_entries (sY : YState) (sS : SState)
    (hY : Yuanbao.isSideways sY = true) (hS : SmaBolling.isSideways sS = true) :
    Yuanbao.shouldLong sY = false ∧ Yuanbao.shouldShort sY = false ∧
    SmaBolling.shouldLong sS = Except.ok false ∧ SmaBolling.shouldShort sS = false := by
  refine ⟨?_, ?_, ?_, rfl⟩
  · rw [Yuanbao.shouldLong, if_pos hY]
  · rw [Yuanbao.shouldShort, if_pos hY]
  · rw [SmaBolling.shouldLong, if_pos hS]; rfl

theorem sideways_suppresses_entries_witness :
    Yuanbao.shouldLong yBase = false ∧ Yuanbao.shouldShort yBase = false ∧
    SmaBolling.shouldLong sBase = Except.ok false ∧ SmaBolling.shouldShort sBase = false :=
  sideways_suppresses_entries yBase sBase rfl rfl

/-- C3: when any sequential series required by the sideways test has
fewer than 2 data points, both classifiers report sideways (the series
are aligned 1:1 with the candle window, so any short series forces the
guarded ADX series short as well). -/
theorem insufficient_data_assumes_sideways (sY : YState) (sS : SState)
    (hAY : Yuanbao.aligned sY) (hAS : SmaBolling.aligned sS)
    (hY : sY.adx.length < 2 ∨ sY.rsi.length < 2 ∨ sY.bbMiddle.length < 2 ∨
      (Yuanbao.bbWidth sY).length < 2)
    (hS : sS.adx.length < 2 ∨ sS.rsi.length < 2 ∨ sS.bbMiddle.length < 2) :
    Yuanbao.isSideways sY = true ∧ SmaBolling.isSideways sS = true := by
  obtain ⟨hr, hrs, ha, hup, hlo, hmid⟩ := hAY
  obtain ⟨hr2, hrs2, ha2, hup2, hlo2, hmid2⟩ := hAS
  have hbaselen : (Yuanbao.bbBase sY).length = sY.bbMiddle.length := by
    rw [Yuanbao.bbBase]; split
    · rfl
    · exact List.length_map _ _
  have hwlen : (Yuanbao.bbWidth sY).length =
      min (min sY.bbUpper.length sY.bbLower.length) (Yuanbao.bbBase sY).length := by
    rw [Yuanbao.bbWidth, List.length_zipWith, List.length_zipWith]
  have hadx : sY.adx.length < 2 := by
    rcases hY with h | h | h | h
    · exact h
    · omega
    · omega
    · rw [hwlen, hbaselen, hup, hlo, hmid] at h
      simp only [min_self] at h
      omega
  have hadx2 : sS.adx.length < 2 := by
    rcases hS with h | h | h
    · exact h
    · omega
    · omega
  constructor
  · rw [Yuanbao.isSideways, if_pos (Or.inl hadx)]
  · rw [SmaBolling.isSideways, if_pos hadx2]

theorem insufficient_data_assumes_sideways_witness :
    Yuanbao.isSideways yBase = true ∧ SmaBolling.isSideways sBase = true :=
  insufficient_data_assumes_sideways yBase sBase ⟨rfl, rfl, rfl, rfl, rfl, rfl⟩
    ⟨rfl, rfl, rfl, rfl, rfl, rfl⟩ (Or.inl (by decide)) (Or.inl (by decide))

/-- C4 counterexample: in `SMABollingStrategy` no epsilon is substituted
when the Bollinger midline is zero — `bb_width` divides by the raw
`bb_middle[-1]`, which in the state below is exactly 0. -/
theorem sma_bb_width_divides_by_zero_midline :
    lastD sZeroMid.bbMiddle = 0 ∧ SmaBolling.bbWidthDen sZeroMid = 0 := by
  exact ⟨by decide, by decide⟩

/-- C4 (amended): in `YuanbaoSMABollingStrategy` every entry of the
`bb_width` denominator list is nonzero (zero midline entries are
replaced by `1e-6`), and whenever the midline entry is positive and the
upper band is at least the lower band, the band width entry is ≥ 0;
`SMABollingStrategy` divides by the raw midline with no substitution. -/
theorem bb_width_denominator_guard (s : YState) (i : ℕ)
    (hu : i < s.bbUpper.length) (hl : i < s.bbLower.length) (hm : i < s.bbMiddle.length) :
    (Yuanbao.bbBase s).getD i 0 ≠ 0 ∧
      (0 < s.bbMiddle.getD i 0 → s.bbLower.getD i 0 ≤ s.bbUpper.getD i 0 →
        0 ≤ (Yuanbao.bbWidth s).getD i 0) := by
  have hbaselen : (Yuanbao.bbBase s).length = s.bbMiddle.length := by
    rw [Yuanbao.bbBase]; split
    · rfl
    · exact List.length_map _ _
  have hbi : i < (Yuanbao.bbBase s).length := by omega
  have hmD : s.bbMiddle.getD i 0 = s.bbMiddle[i] := List.getD_eq_getElem _ _ hm
  have hbD : (Yuanbao.bbBase s).getD i 0 = (Yuanbao.bbBase s)[i] := List.getD_eq_getElem _ _ hbi
  -- characterize the denominator entry
  have hbase : (Yuanbao.bbBase s).getD i 0 =
      (if 0 < pyMin s.bbMiddle then s.bbMiddle[i]
       else if s.bbMiddle[i] = 0 then 1 / 1000000 else s.bbMiddle[i]) := by
    rw [hbD]
    by_cases hmin : 0 < pyMin s.bbMiddle
    · rw [if_pos hmin]
      have : Yuanbao.bbBase s = s.bbMiddle := by rw [Yuanbao.bbBase, if_pos hmin]
      exact List.getElem_of_eq this hbi
    · rw [if_neg hmin]
      have heq : Yuanbao.bbBase s = s.bbMiddle.map (fun v => if v = 0 then 1 / 1000000 else v) := by
        rw [Yuanbao.bbBase, if_neg hmin]
      rw [List.getElem_of_eq heq hbi, List.getElem_map]
  have hpos : 0 < s.bbMiddle[i] → 0 < (Yuanbao.bbBase s).getD i 0 := by
    intro h
    rw [hbase]
    by_cases hmin : 0 < pyMin s.bbMiddle
    · rw [if_pos hmin]; exact h
    · rw [if_neg hmin, if_neg (ne_of_gt h)]; exact h
  constructor
  · rw [hbase]
    by_cases hmin : 0 < pyMin s.bbMiddle
    · rw [if_pos hmin]
      exact ne_of_gt (lt_of_lt_of_le hmin (pyMin_le _ _ (List.getElem_mem hm)))
    · rw [if_neg hmin]
      by_cases hz : s.bbMiddle[i] = 0
      · rw [if_pos hz]; norm_num
      · rw [if_neg hz]; exact hz
  · intro hmidpos hle
    rw [hmD] at hmidpos
    have hsub : i < (List.zipWith (fun u l => u - l) s.bbUpper s.bbLower).length := by
      rw [List.length_zipWith]; omega
    have hwi : i < (Yuanbao.bbWidth s).length := by
      rw [Yuanbao.bbWidth, List.length_zipWith]; omega
    have heqw : Yuanbao.bbWidth s =
        List.zipWith (fun d b => d / b)
          (List.zipWith (fun u l => u - l) s.bbUpper s.bbLower) (Yuanbao.bbBase s) := rfl
    have hw : (Yuanbao.bbWidth s).getD i 0 =
        (s.bbUpper[i] - s.bbLower[i]) / (Yuanbao.bbBase s)[i] := by
      rw [List.getD_eq_getElem _ _ hwi]
      rw [List.getElem_of_eq heqw hwi, List.getElem_zipWith, List.getElem_zipWith]
    rw [hw]
    have h1 : 0 ≤ s.bbUpper[i] - s.bbLower[i] := by
      rw [List.getD_eq_getElem _ _ hl, List.getD_eq_getElem _ _ hu] at hle
      linarith
    have h2 : 0 < (Yuanbao.bbBase s)[i] := by
      rw [← hbD]; exact hpos hmidpos
    exact div_nonneg h1 (le_of_lt h2)

theorem bb_width_denominator_guard_witness :
    (Yuanbao.bbBase yBands).getD 0 0 ≠ 0 ∧
      (0 < yBands.bbMiddle.getD 0 0 → yBands.bbLower.getD 0 0 ≤ yBands.bbUpper.getD 0 0 →
        0 ≤ (Yuanbao.bbWidth yBands).getD 0 0) :=
  bb_width_denominator_guard yBands 0 (by decide) (by decide) (by decide)

/-- With margin at least the threshold, the result of
`calculate_position_size` is floored at the minimum quantity 10
(`max(qty, min_qty)` in the source); shared by several claims below. -/
theorem calcPositionSize_ge_ten (s : YState) (h : ¬ s.availableMargin < 10) :
    10 ≤ Yuanbao.calcPositionSize s := by
  rw [Yuanbao.calcPositionSize, if_neg h]
  exact le_max_right _ _

/-- C5 counterexample: with margin 100 and a most-recent ATR of 0 the
computed stop distance is non-positive, yet `calculate_position_size`
does not return 0 (the min-quantity floor applies; in the source the
division by the zero stop distance yields a non-zero float as well). -/
theorem position_size_nonzero_with_zero_stop_distance :
    Yuanbao.stopDistance yZeroAtr ≤ 0 ∧ ¬(yZeroAtr.availableMargin < 10) ∧
      Yuanbao.calcPositionSize yZeroAtr ≠ 0 := by
  refine ⟨?_, by decide, ?_⟩
  · rw [Yuanbao.stopDistance, Yuanbao.atrValue]
    norm_num [yZeroAtr, yBase, yDefaultCfg, lastD]
  · intro h0
    have h10 := calcPositionSize_ge_ten yZeroAtr (by decide)
    rw [h0] at h10
    norm_num at h10

/-- C5 (amended): the quantity returned by `calculate_position_size` is
always ≥ 0, and it is 0 exactly when the available margin is below the
minimum threshold 10; a non-positive stop distance does not yield 0. -/
theorem position_size_nonneg_zero_iff (s : YState) :
    0 ≤ Yuanbao.calcPositionSize s ∧
      (Yuanbao.calcPositionSize s = 0 ↔ s.availableMargin < 10) := by
  by_cases h : s.availableMargin < 10
  · have h0 : Yuanbao.calcPositionSize s = 0 := by
      rw [Yuanbao.calcPositionSize, if_pos h]
    exact ⟨by rw [h0], by rw [h0]; exact ⟨fun _ => h, fun _ => rfl⟩⟩
  · have h10 := calcPositionSize_ge_ten s h
    refine ⟨by linarith, ?_, fun hm => absurd hm h⟩
    intro h0
    rw [h0] at h10
    norm_num at h10

/-- C6: with available margin below the threshold (scenario: margin 5,
threshold 10) `calculate_position_size` returns 0 and `go_long` submits
no order. -/
theorem low_capital_no_trade (s : YState) (h : s.availableMargin < 10) :
    Yuanbao.calcPositionSize s = 0 ∧ Yuanbao.goLong s = none := by
  have hc : Yuanbao.calcPositionSize s = 0 := by
    rw [Yuanbao.calcPositionSize, if_pos h]
  refine ⟨hc, ?_⟩
  rw [Yuanbao.goLong]
  simp [hc]

theorem low_capital_no_trade_witness :
    Yuanbao.calcPositionSize yMargin5 = 0 ∧ Yuanbao.goLong yMargin5 = none :=
  low_capital_no_trade yMargin5 (by decide)

/-- C9: whenever the available margin is at least the threshold 10,
`calculate_position_size` returns at least the minimum quantity 10, and
its result is never strictly between 0 and 10. -/
theorem position_size_min_qty_floor (s : YState) :
    (10 ≤ s.availableMargin → 10 ≤ Yuanbao.calcPositionSize s) ∧
      ¬(0 < Yuanbao.calcPositionSize s ∧ Yuanbao.calcPositionSize s < 10) := by
  constructor
  · intro hm
    exact calcPositionSize_ge_ten s (not_lt.mpr hm)
  · rintro ⟨hpos, hlt⟩
    by_cases h : s.availableMargin < 10
    · rw [Yuanbao.calcPositionSize, if_pos h] at hpos
      exact lt_irrefl 0 hpos
    · have := calcPositionSize_ge_ten s h
      linarith

theorem position_size_min_qty_floor_witness :
    10 ≤ Yuanbao.calcPositionSize yZeroAtr :=
  (position_size_min_qty_floor yZeroAtr).1 (by decide)

/-- The adapter succeeds on an available window of sufficient length. -/
theorem temaOn4h_ok (a : Aux4h) (p : ℕ) (hp : p ≤ a.len) :
    temaOn4h (some a) p = Except.ok (a.temaAt p) := if_neg (not_lt.mpr hp)

/-- An `Except`-valued two-way branch over `pure` always succeeds. -/
theorem exists_ok_of_ite (u : Bool) (x y : Bool) :
    ∃ b, (if u then (pure x : Except IndicatorError Bool) else pure y) = Except.ok b := by
  cases u
  · exact ⟨y, rfl⟩
  · exact ⟨x, rfl⟩

/-- C7 counterexample: an evaluation with an open long position over a
19-candle window writes no stop-loss at all — the stop is not
recomputed on this evaluation. -/
theorem long_position_no_stop_update_under_20_candles :
    yLong19.posSide = PosSide.long ∧ Yuanbao.updatePosition yLong19 = none :=
  ⟨rfl, rfl⟩

/-- C7 (amended): while a long position is open, each evaluation of
`update_position` with at least 20 candles rewrites the stop-loss to
`entry_price - stop_loss_atr_multiplier * recent ATR` (and the
take-profit symmetrically) in `YuanbaoSMABollingStrategy`; in
`SMABollingStrategy` every evaluation with an open position and
available 4h data rewrites the stop to
`entry_price - atr * stop_loss_factor`. -/
theorem stop_recomputed_each_evaluation (sY : YState) (sS : SState) (a : Aux4h)
    (hside : sY.posSide = PosSide.long) (hlen : 20 ≤ sY.candles.length)
    (hq : 0 < sS.posQty) (ha : sS.aux4h = some a)
    (h1 : sS.cfg.longTemaShortPeriod ≤ a.len) (h2 : sS.cfg.longTemaLongPeriod ≤ a.len) :
    Yuanbao.updatePosition sY =
      some (sY.entryPrice - sY.cfg.slMult * sY.recentAtr,
            sY.entryPrice + sY.cfg.tpMult * sY.recentAtr) ∧
    ∃ out, SmaBolling.updatePosition sS = Except.ok out ∧
      out.stopLoss = some (sS.posQty, sS.posEntry - sS.atrScalar * sS.cfg.stopLossFactor) := by
  constructor
  · simp only [Yuanbao.updatePosition, hside]
    rw [if_pos hlen]
  · have hup : ∃ u, SmaBolling.isUptrend sS = Except.ok u := by
      by_cases h1t : SmaBolling.shortTermTrend sS = 1
      · rw [SmaBolling.isUptrend, if_pos h1t, SmaBolling.longTermTrend, ha,
          temaOn4h_ok a _ h1, temaOn4h_ok a _ h2]
        exact ⟨_, rfl⟩
      · rw [SmaBolling.isUptrend, if_neg h1t]
        exact ⟨false, rfl⟩
    obtain ⟨u, hu⟩ := hup
    obtain ⟨b, hb⟩ : ∃ b, SmaBolling.closeLongSignal sS = Except.ok b := by
      rw [SmaBolling.closeLongSignal, hu]
      exact exists_ok_of_ite u _ _
    refine ⟨{ stopLoss := some (sS.posQty, sS.posEntry - sS.atrScalar * sS.cfg.stopLossFactor),
              liquidated := b }, ?_, rfl⟩
    rw [SmaBolling.updatePosition, if_pos hq, hb]
    rfl

theorem stop_recomputed_each_evaluation_witness :
    Yuanbao.updatePosition yLong20 = some (1000 - 2 * 50, 1000 + 3 * 50) ∧
    ∃ out, SmaBolling.updatePosition sLongPos = Except.ok out ∧
      out.stopLoss = some (1, 500 - 10 * 4) :=
  stop_recomputed_each_evaluation yLong20 sLongPos (auxConst 100 1) rfl (by decide)
    (by decide) rfl (by decide) (by decide)

/-- C8 counterexample: in `SMABollingStrategy`, `long_term_trend` calls
the 4h TEMA with no availability guard, so with the auxiliary window
unavailable the insufficient-data failure propagates instead of the
checklist item evaluating to false. -/
theorem sma_long_term_trend_errors_when_4h_unavailable :
    sBase.aux4h = none ∧
    SmaBolling.longTermTrend sBase = Except.error IndicatorError.insufficientData :=
  ⟨rfl, rfl⟩

/-- C8 (amended): in `YuanbaoSMABollingStrategy`, when the hourly data
is unavailable or shorter than the required 50 candles, `hourly_sma` is
`None`, the hourly checklist item evaluates to false without error, and
the ≥3-of-4 quorum is decided by the remaining three items; in
`SMABollingStrategy` the unguarded 4h call propagates the
insufficient-data failure instead. -/
theorem hourly_unavailable_item_false (sY : YState) (sS : SState)
    (hY : sY.hourlyLen = none ∨ ∃ n, sY.hourlyLen = some n ∧ n < 50)
    (hS : sS.aux4h = none) :
    Yuanbao.hourlyUp sY = false ∧
      (Yuanbao.isStrongUptrend sY = true ↔
        (¬ sY.candles.length < sY.cfg.minTrendPeriod * 2 ∧
          Yuanbao.aboveSma sY = true ∧ Yuanbao.adxRising sY = true ∧
          Yuanbao.volumeSpike sY = true)) ∧
      SmaBolling.longTermTrend sS = Except.error IndicatorError.insufficientData := by
  have hnone : Yuanbao.hourlySma sY = none := by
    rcases hY with h | ⟨n, hn, hlt⟩
    · simp only [Yuanbao.hourlySma, h]
    · simp only [Yuanbao.hourlySma, hn]
      exact if_neg (by omega)
  have hUp : Yuanbao.hourlyUp sY = false := by
    simp only [Yuanbao.hourlyUp, hnone]
  refine ⟨hUp, ?_, by rw [SmaBolling.longTermTrend, hS]; rfl⟩
  by_cases hlen : sY.candles.length < sY.cfg.minTrendPeriod * 2
  · rw [Yuanbao.isStrongUptrend, if_pos hlen]
    simp [hlen]
  · rw [Yuanbao.isStrongUptrend, if_neg hlen, hUp]
    simp only [decide_eq_true_eq, three_of_four_with_false]
    simp [hlen]

theorem hourly_unavailable_item_false_witness :
    Yuanbao.hourlyUp yBase = false ∧
      (Yuanbao.isStrongUptrend yBase = true ↔
        (¬ yBase.candles.length < yBase.cfg.minTrendPeriod * 2 ∧
          Yuanbao.aboveSma yBase = true ∧ Yuanbao.adxRising yBase = true ∧
          Yuanbao.volumeSpike yBase = true)) ∧
      SmaBolling.longTermTrend sBase = Except.error IndicatorError.insufficientData :=
  hourly_unavailable_item_false yBase sBase (Or.inl rfl) rfl

/-- C10: in `TemaTrendFollowing` the submitted entry quantity is exactly
three times the risk-computed size: `go_long` buys
`3 * min(risk_to_qty(margin, 3, entry, stop, fee), size_to_qty(0.30 * margin, entry, fee))`
and `go_short` sells `3 * risk_to_qty(margin, 3, entry, stop, fee)`,
with `entry = price ∓ ATR` and `stop = entry ∓ 4 * ATR`. -/
theorem tema_order_qty_triple (rq : ℚ → ℚ → ℚ → ℚ → ℚ → ℚ) (sq : ℚ → ℚ → ℚ → ℚ)
    (s : TState) :
    (Tema.goLong rq sq s).1 =
      3 * min (rq s.availableMargin 3 (s.price - s.atr) (s.price - s.atr - s.atr * 4) s.feeRate)
          (sq (30 / 100 * s.availableMargin) (s.price - s.atr) s.feeRate) ∧
    (Tema.goShort rq s).1 =
      3 * rq s.availableMargin 3 (s.price + s.atr) (s.price + s.atr + s.atr * 4) s.feeRate :=
  ⟨mul_comm _ 3, mul_comm _ 3⟩
